import Mathlib

/-!
Shallow embedding of the EZEN news-post editor (`src/App.tsx`).

Pointer coordinates, percentages and pixel offsets are modelled as rationals
(`ℚ`); JavaScript `Math.max`/`Math.min`/`Math.abs` become `jsMax`/`jsMin`/
`jsAbs` on `ℚ` (equal to Mathlib's `max`/`min`/`|·|`, see the bridge lemmas).
The React state hooks (`post`, `dragTarget`, `dragStart`, `isDragging`)
become fields of an explicit `AppState`, and each event handler becomes a
function from its event data and the current state to the next state.
-/

namespace EzenNews

/-- The `PostFormat` union type `'1:1' | '9:16' | '16:9'` (App.tsx line 6):
`r1x1` is `'1:1'`, `r9x16` is `'9:16'`, `r16x9` is `'16:9'`. -/
inductive PostFormat
  | r1x1
  | r9x16
  | r16x9
deriving DecidableEq, Repr

/-- The `DragTarget` union type `'background' | 'circle' | 'headline' | null`
(App.tsx line 7); the `null` case is `Option.none` at use sites. -/
inductive DragTarget
  | background
  | circle
  | headline
deriving DecidableEq, Repr

/-- The `NewsPost` interface (App.tsx lines 9-25). Numeric fields are `ℚ`,
the nullable image references are `Option String`. -/
structure NewsPost where
  brandName : String
  headline : String
  mainImage : Option String
  circleImage : Option String
  highlightColor : String
  brandColor : String
  format : PostFormat
  mainImageY : ℚ
  circleImageY : ℚ
  circleImageScale : ℚ
  circleX : ℚ
  circleY : ℚ
  circleSize : ℚ
  headlineSize : ℚ
  headlineY : ℚ
deriving DecidableEq, Repr

/-- The initial `useState<NewsPost>` value (App.tsx lines 56-72). -/
def defaultPost : NewsPost where
  brandName := "EZEN NEWS"
  headline := "EZEN NEWS revelado: Novo gerador de posts {revoluciona} design digital"
  mainImage := some "https://images.unsplash.com/photo-1485827404703-89b55fcc595e?auto=format&fit=crop&q=80&w=1080"
  circleImage := some "https://images.unsplash.com/photo-1531297484001-80022131f5a1?auto=format&fit=crop&q=80&w=400"
  highlightColor := "#00D1FF"
  brandColor := "#FF0055"
  format := PostFormat.r1x1
  mainImageY := 50
  circleImageY := 50
  circleImageScale := 1
  circleX := 10
  circleY := 10
  circleSize := 30
  headlineSize := 100
  headlineY := 0

/-- The preview container's bounding rectangle, as produced by
`previewRef.current.getBoundingClientRect()` (App.tsx line 116). -/
structure Rect where
  left : ℚ
  top : ℚ
  width : ℚ
  height : ℚ
  right : ℚ
  bottom : ℚ
deriving DecidableEq, Repr

/-- The mutable component state relevant to the gesture classifier and the
drag mappers: the `post`, `dragTarget`, `dragStart` and `isDragging` hooks
(App.tsx lines 56, 75-77). -/
structure AppState where
  post : NewsPost
  dragTarget : Option DragTarget
  dragStart : ℚ × ℚ
  isDragging : Bool
deriving DecidableEq, Repr

/-- JavaScript `Math.max` on two arguments. -/
def jsMax (a b : ℚ) : ℚ :=
  if a ≤ b then b else a

/-- JavaScript `Math.min` on two arguments. -/
def jsMin (a b : ℚ) : ℚ :=
  if a ≤ b then a else b

/-- JavaScript `Math.abs`. -/
def jsAbs (a : ℚ) : ℚ :=
  if a < 0 then -a else a

/-- Circle branch of the `setPost` updater in `handlePointerMove`
(App.tsx lines 121-127): the pointer percentage coordinates map to the
circle's centre and both axes are clamped into `[0, 100 - circleSize]`. -/
def circleMapper (xPct yPct : ℚ) (p : NewsPost) : NewsPost :=
  { p with
    circleX := jsMax 0 (jsMin (100 - p.circleSize) (xPct - p.circleSize / 2))
    circleY := jsMax 0 (jsMin (100 - p.circleSize) (yPct - p.circleSize / 2)) }

/-- Background branch of the `setPost` updater in `handlePointerMove`
(App.tsx lines 128-130): `mainImageY := clamp(yPct, 0, 100)`. -/
def backgroundMapper (yPct : ℚ) (p : NewsPost) : NewsPost :=
  { p with mainImageY := jsMax 0 (jsMin 100 yPct) }

/-- Headline branch of the `setPost` updater in `handlePointerMove`
(App.tsx lines 131-135): `headlineY := (rect.bottom - clientY) - baseline`
with baseline 180 for `'9:16'` and 100 otherwise; no clamping. -/
def headlineMapper (rect : Rect) (clientY : ℚ) (p : NewsPost) : NewsPost :=
  let fromBottom := rect.bottom - clientY
  let offset := fromBottom - (if p.format = PostFormat.r9x16 then 180 else 100)
  { p with headlineY := offset }

/-- Dispatch of `handlePointerMove`'s `setPost` updater on `dragTarget`
(App.tsx lines 116-137), including the shared percentage computations
`xPct = ((rect.right - clientX) / rect.width) * 100` and
`yPct = ((clientY - rect.top) / rect.height) * 100`. -/
def applyMapper (t : DragTarget) (clientX clientY : ℚ) (rect : Rect)
    (p : NewsPost) : NewsPost :=
  let xPct := (rect.right - clientX) / rect.width * 100
  let yPct := (clientY - rect.top) / rect.height * 100
  match t with
  | DragTarget.circle => circleMapper xPct yPct p
  | DragTarget.background => backgroundMapper yPct p
  | DragTarget.headline => headlineMapper rect clientY p

/-- `handlePointerDown` (App.tsx lines 102-107): tag the target, record the
start point, clear the drag flag.  (Pointer capture is a platform effect
with no bearing on the state fields modelled here.) -/
def handlePointerDown (t : DragTarget) (clientX clientY : ℚ)
    (s : AppState) : AppState :=
  { s with dragTarget := some t, dragStart := (clientX, clientY), isDragging := false }

/-- `handlePointerMove` (App.tsx lines 109-138).  The early return fires
when `dragTarget` is `null`; a present `rect` models a mounted
`previewRef.current`.  The threshold test `dx > 5 || dy > 5` only sets
`isDragging`; the `setPost` updater runs unconditionally afterwards. -/
def handlePointerMove (clientX clientY : ℚ) (rect : Rect)
    (s : AppState) : AppState :=
  match s.dragTarget with
  | none => s
  | some t =>
    let dx := jsAbs (clientX - s.dragStart.1)
    let dy := jsAbs (clientY - s.dragStart.2)
    let dragging := if 5 < dx ∨ 5 < dy then true else s.isDragging
    { s with
      isDragging := dragging
      post := applyMapper t clientX clientY rect s.post }

/-- `handlePointerUp` (App.tsx lines 140-147).  Returns the next state
together with the file-selection surface opened by a tap, if any
(`fileInputRef.click()` for background, `circleInputRef.click()` for
circle, nothing for headline or a `null` target). -/
def handlePointerUp (target : Option DragTarget) (s : AppState) :
    AppState × Option DragTarget :=
  let tap : Option DragTarget :=
    if s.isDragging then none
    else
      match target with
      | some DragTarget.background => some DragTarget.background
      | some DragTarget.circle => some DragTarget.circle
      | _ => none
  ({ s with dragTarget := none, isDragging := false }, tap)

/-- A pointer-move event: client coordinates plus the bounding rect read
during the handler. -/
structure MoveEv where
  x : ℚ
  y : ℚ
  rect : Rect
deriving DecidableEq, Repr

/-- Process a list of pointer-move events in order. -/
def runMoves (ms : List MoveEv) (s : AppState) : AppState :=
  ms.foldl (fun st m => handlePointerMove m.x m.y m.rect st) s

/-- The `circleSize` range input's `onChange` handler
(App.tsx line 315): `setPost({...post, circleSize: parseInt(v)})`
replaces exactly the `circleSize` field. -/
def setCircleSize (p : NewsPost) (v : ℚ) : NewsPost :=
  { p with circleSize := v }

/-- The 600×600 preview rectangle used in concrete scenarios. -/
def rect600 : Rect where
  left := 0
  top := 0
  width := 600
  height := 600
  right := 600
  bottom := 600

/-- A state in the middle of a circle drag that started at the origin. -/
def circleDragState : AppState where
  post := defaultPost
  dragTarget := some DragTarget.circle
  dragStart := (0, 0)
  isDragging := false

/-- A state in the middle of a headline drag that started at the origin. -/
def headlineDragState : AppState where
  post := defaultPost
  dragTarget := some DragTarget.headline
  dragStart := (0, 0)
  isDragging := false

/-- A state in the middle of a background drag that started at the origin. -/
def backgroundDragState : AppState where
  post := defaultPost
  dragTarget := some DragTarget.background
  dragStart := (0, 0)
  isDragging := false

/-- A quiescent state: no pointer interaction in progress. -/
def idleState : AppState where
  post := defaultPost
  dragTarget := none
  dragStart := (0, 0)
  isDragging := false

/-- A document whose circle sits at `circleX = circleY = 50`, about to be
resized. -/
def wideCirclePost : NewsPost :=
  { defaultPost with circleX := 50, circleY := 50 }

/-- The export-related component state: the `isExporting` flag (App.tsx
line 74) plus an instrumentation counter recording how many times the
rasterizer (`html2canvas`) has been invoked. -/
structure ExportState where
  isExporting : Bool
  rasterizerCalls : Nat
deriving DecidableEq, Repr

/-- The synchronous prefix of `downloadPost` (App.tsx lines 173-181): the
guard `if (!previewRef.current || isExporting) return;` followed by
`setIsExporting(true)` and the `html2canvas` invocation.  `hasPreview`
models `previewRef.current` being non-null. -/
def downloadPostStart (hasPreview : Bool) (s : ExportState) : ExportState :=
  if hasPreview = false ∨ s.isExporting = true then s
  else { isExporting := true, rasterizerCalls := s.rasterizerCalls + 1 }

/-- The `finally` block of `downloadPost` (App.tsx lines 188-190):
`setIsExporting(false)` when the in-flight export settles, on both the
success and the failure path. -/
def downloadPostFinish (s : ExportState) : ExportState :=
  { s with isExporting := false }

/-- A JavaScript line terminator: the characters `.` does not match in the
regex `/(\{.*?\})/` (no `s` flag): `\n`, `\r`, U+2028, U+2029. -/
def isLineTerm (c : Char) : Bool :=
  c == '\n' || c == '\r' || c == Char.ofNat 0x2028 || c == Char.ofNat 0x2029

/-- One rendered piece of the headline: ordinary text, or a segment wrapped
in `{...}` and rendered in `post.highlightColor` (the colour itself plays no
role in the segmentation). -/
inductive Segment
  | plain (text : List Char)
  | highlight (text : List Char)
deriving DecidableEq, Repr

/-- `text.split(/(\{.*?\})/)` (App.tsx line 164) as a single left-to-right
scan.  `out` is the text accumulated since the last match; `pending = some
buf` means a `{` has been read whose lazy `.*?` has consumed `buf` so far.
A match closes at the first `}` after its `{`; a line terminator kills the
pending match (`.` does not cross it, and no other match can start inside
`buf`, which contains no `}`), as does the end of the input.  Unmatched
stretches are accumulated into `out`; matched separators are emitted as
their own parts, exactly as `String.prototype.split` with a capturing
group does. -/
def splitLoop (out : List Char) (pending : Option (List Char)) :
    List Char → List (List Char)
  | [] =>
    match pending with
    | none => [out]
    | some buf => [out ++ '{' :: buf]
  | c :: cs =>
    match pending with
    | none =>
      if c = '{' then splitLoop out (some []) cs
      else splitLoop (out ++ [c]) none cs
    | some buf =>
      if c = '}' then out :: ('{' :: buf ++ ['}']) :: splitLoop [] none cs
      else if isLineTerm c then splitLoop (out ++ '{' :: buf ++ [c]) none cs
      else splitLoop out (some (buf ++ [c])) cs

/-- The body of the `parts.map` in `renderHeadline` (App.tsx lines 165-170):
a part that starts with `{` and ends with `}` is rendered highlighted with
the delimiters stripped (`part.slice(1, -1)`); every other part is plain
text. -/
def renderPart (p : List Char) : Segment :=
  if p.head? = some '{' ∧ p.getLast? = some '}' then
    Segment.highlight p.tail.dropLast
  else Segment.plain p

/-- `renderHeadline` (App.tsx lines 163-171) on a character list. -/
def renderHeadlineChars (cs : List Char) : List Segment :=
  (splitLoop [] none cs).map renderPart

/-- `renderHeadline` (App.tsx lines 163-171). -/
def renderHeadline (text : String) : List Segment :=
  renderHeadlineChars text.toList

/-- A character list without brace characters. -/
def braceFree (s : List Char) : Prop :=
  '{' ∉ s ∧ '}' ∉ s

instance (s : List Char) : Decidable (braceFree s) := by
  unfold braceFree
  infer_instance

/-- A character list without line terminators. -/
def noLineTermIn (s : List Char) : Prop :=
  ∀ c ∈ s, isLineTerm c = false

instance (s : List Char) : Decidable (noLineTermIn s) := by
  unfold noLineTermIn
  infer_instance

/-- A headline whose braces form balanced, non-nested pairs, presented as
its decomposition: outside texts `pr.1` interleaved with bracketed inner
texts `pr.2`, followed by a final outside text. -/
def assemble (pieces : List (List Char × List Char))
    (tailText : List Char) : List Char :=
  (pieces.map (fun pr => pr.1 ++ '{' :: (pr.2 ++ ['}']))).flatten ++ tailText

/-- The parts `text.split(/(\{.*?\})/)` produces on such a decomposition. -/
def partsOf (pieces : List (List Char × List Char))
    (tailText : List Char) : List (List Char) :=
  match pieces with
  | [] => [tailText]
  | pr :: ps => pr.1 :: ('{' :: (pr.2 ++ ['}'])) :: partsOf ps tailText

/-- The segments the spec expects on such a decomposition: each outside
text plain, each inner text highlighted with its delimiters stripped. -/
def expectedSegs (pieces : List (List Char × List Char))
    (tailText : List Char) : List Segment :=
  (pieces.map (fun pr => [Segment.plain pr.1, Segment.highlight pr.2])).flatten ++
    [Segment.plain tailText]

/-! ### Bridge lemmas between the JavaScript arithmetic and Mathlib -/

lemma jsMax_eq_max (a b : ℚ) : jsMax a b = max a b := by
  unfold jsMax
  rcases le_total a b with h | h
  · rw [if_pos h, max_eq_right h]
  · rcases eq_or_lt_of_le h with rfl | hlt
    · simp
    · rw [if_neg (not_le.mpr hlt), max_eq_left h]

lemma jsMin_eq_min (a b : ℚ) : jsMin a b = min a b := by
  unfold jsMin
  rcases le_total a b with h | h
  · rw [if_pos h, min_eq_left h]
  · rcases eq_or_lt_of_le h with rfl | hlt
    · simp
    · rw [if_neg (not_le.mpr hlt), min_eq_right h]

lemma jsAbs_eq_abs (a : ℚ) : jsAbs a = |a| := by
  unfold jsAbs
  rcases lt_or_le a 0 with h | h
  · rw [if_pos h, abs_of_neg h]
  · rw [if_neg (not_lt.mpr h), abs_of_nonneg h]

/-- The `Math.max(0, Math.min(hi, v))` clamp lands in `[0, hi]` whenever
`0 ≤ hi`. -/
lemma jsClamp_bounds (hi v : ℚ) (h : 0 ≤ hi) :
    0 ≤ jsMax 0 (jsMin hi v) ∧ jsMax 0 (jsMin hi v) ≤ hi := by
  unfold jsMax jsMin
  split_ifs <;> constructor <;> linarith

/-! ### C2: the circle mapper clamps into bounds for every pointer input -/

/-- C2.  For every pointer coordinate pair (including coordinates far outside
the preview rectangle) and every document with `circleSize ∈ [10, 70]`, a
circle-drag `handlePointerMove` leaves the post with
`0 ≤ circleX ≤ 100 - circleSize` and `0 ≤ circleY ≤ 100 - circleSize`, hence
`circleX + circleSize ≤ 100` and `circleY + circleSize ≤ 100`. -/
theorem circle_drag_stays_in_bounds (clientX clientY : ℚ) (rect : Rect)
    (s : AppState) (hT : s.dragTarget = some DragTarget.circle)
    (_hlo : 10 ≤ s.post.circleSize) (hhi : s.post.circleSize ≤ 70) :
    0 ≤ (handlePointerMove clientX clientY rect s).post.circleX ∧
    (handlePointerMove clientX clientY rect s).post.circleX ≤
      100 - (handlePointerMove clientX clientY rect s).post.circleSize ∧
    0 ≤ (handlePointerMove clientX clientY rect s).post.circleY ∧
    (handlePointerMove clientX clientY rect s).post.circleY ≤
      100 - (handlePointerMove clientX clientY rect s).post.circleSize ∧
    (handlePointerMove clientX clientY rect s).post.circleX +
      (handlePointerMove clientX clientY rect s).post.circleSize ≤ 100 ∧
    (handlePointerMove clientX clientY rect s).post.circleY +
      (handlePointerMove clientX clientY rect s).post.circleSize ≤ 100 := by
  have hhi0 : (0:ℚ) ≤ 100 - s.post.circleSize := by linarith
  simp only [handlePointerMove, hT, applyMapper, circleMapper]
  obtain ⟨hx0, hx1⟩ := jsClamp_bounds (100 - s.post.circleSize)
    ((rect.right - clientX) / rect.width * 100 - s.post.circleSize / 2) hhi0
  obtain ⟨hy0, hy1⟩ := jsClamp_bounds (100 - s.post.circleSize)
    ((clientY - rect.top) / rect.height * 100 - s.post.circleSize / 2) hhi0
  refine ⟨hx0, hx1, hy0, hy1, by linarith, by linarith⟩

/-- Witness for C2 on the default document (circleSize 30) and a pointer far
outside a 600×600 preview. -/
theorem circle_drag_stays_in_bounds_witness :
    0 ≤ (handlePointerMove (-500) 9000 rect600 circleDragState).post.circleX ∧
    (handlePointerMove (-500) 9000 rect600 circleDragState).post.circleX ≤
      100 - (handlePointerMove (-500) 9000 rect600 circleDragState).post.circleSize ∧
    0 ≤ (handlePointerMove (-500) 9000 rect600 circleDragState).post.circleY ∧
    (handlePointerMove (-500) 9000 rect600 circleDragState).post.circleY ≤
      100 - (handlePointerMove (-500) 9000 rect600 circleDragState).post.circleSize ∧
    (handlePointerMove (-500) 9000 rect600 circleDragState).post.circleX +
      (handlePointerMove (-500) 9000 rect600 circleDragState).post.circleSize ≤ 100 ∧
    (handlePointerMove (-500) 9000 rect600 circleDragState).post.circleY +
      (handlePointerMove (-500) 9000 rect600 circleDragState).post.circleSize ≤ 100 :=
  circle_drag_stays_in_bounds (-500) 9000 rect600 circleDragState rfl
    (by norm_num [circleDragState, defaultPost])
    (by norm_num [circleDragState, defaultPost])

/-! ### C6: concrete circle-centre mapping -/

/-- C6.  With the preview rect `{left 0, top 0, width 600, height 600,
right 600, bottom 600}` and `circleSize = 30`, a circle drag at `(450, 300)`
yields `circleX = 10` and `circleY = 35` (centre-anchored, x measured from
the right edge, both axes clamped). -/
theorem circle_center_mapping_concrete :
    (handlePointerMove 450 300 rect600 circleDragState).post.circleX = 10 ∧
    (handlePointerMove 450 300 rect600 circleDragState).post.circleY = 35 := by
  norm_num [handlePointerMove, circleDragState, rect600, defaultPost,
    applyMapper, circleMapper, jsMax, jsMin, jsAbs]

/-! ### C1: the mapper is NOT gated by the drag classification -/

/-- Counterexample to C1 as stated.  In a circle drag that started at the
origin, the pointer-move to `(3, 4)` stays within 5 pixels of the start in
both axes (so the gesture is not classified as a drag — `isDragging` remains
`false`), yet the document is mutated: `circleX` jumps from 10 to 70. -/
theorem move_below_threshold_still_mutates :
    jsAbs ((3:ℚ) - 0) ≤ 5 ∧ jsAbs ((4:ℚ) - 0) ≤ 5 ∧
    circleDragState.dragStart = (0, 0) ∧
    (handlePointerMove 3 4 rect600 circleDragState).isDragging = false ∧
    (handlePointerMove 3 4 rect600 circleDragState).post.circleX = 70 ∧
    circleDragState.post.circleX = 10 ∧
    (handlePointerMove 3 4 rect600 circleDragState).post ≠ circleDragState.post := by
  refine ⟨by norm_num [jsAbs], by norm_num [jsAbs], rfl, ?_, ?_, rfl, ?_⟩ <;>
    norm_num [handlePointerMove, circleDragState, rect600, defaultPost,
      applyMapper, circleMapper, jsMax, jsMin, jsAbs, NewsPost.mk.injEq]

/-- C1 amended.  On every pointer-move while a target is active the document
is routed through the target's mapper unconditionally — also when the
displacement from the start point is at most 5 pixels in both axes; the
threshold only decides whether `isDragging` is set, and a sub-threshold move
leaves `isDragging` unchanged while still replacing the post with the
mapper's output. -/
theorem move_applies_mapper_unconditionally (clientX clientY : ℚ)
    (rect : Rect) (s : AppState) (t : DragTarget)
    (hT : s.dragTarget = some t) :
    (handlePointerMove clientX clientY rect s).post =
      applyMapper t clientX clientY rect s.post ∧
    (jsAbs (clientX - s.dragStart.1) ≤ 5 ∧ jsAbs (clientY - s.dragStart.2) ≤ 5 →
      (handlePointerMove clientX clientY rect s).isDragging = s.isDragging) := by
  constructor
  · simp only [handlePointerMove, hT]
  · rintro ⟨hx, hy⟩
    simp only [handlePointerMove, hT]
    rw [if_neg]
    push_neg
    exact ⟨hx, hy⟩

/-- Witness for the amended C1: a sub-threshold circle move at `(3, 4)`. -/
theorem move_applies_mapper_unconditionally_witness :
    (handlePointerMove 3 4 rect600 circleDragState).post =
      applyMapper DragTarget.circle 3 4 rect600 circleDragState.post ∧
    (jsAbs ((3:ℚ) - circleDragState.dragStart.1) ≤ 5 ∧
        jsAbs ((4:ℚ) - circleDragState.dragStart.2) ≤ 5 →
      (handlePointerMove 3 4 rect600 circleDragState).isDragging =
        circleDragState.isDragging) :=
  move_applies_mapper_unconditionally 3 4 rect600 circleDragState
    DragTarget.circle rfl

/-! ### C5: the 5-pixel threshold is a strict comparison -/

/-- C5.  With an active target and `isDragging` still `false`, a move whose
displacement is exactly 5 pixels in each axis does not set the flag, while a
move of 6 pixels in the x axis alone, or in the y axis alone, does. -/
theorem threshold_boundary (s : AppState) (t : DragTarget) (sx sy : ℚ)
    (rect : Rect) (hT : s.dragTarget = some t) (hD : s.isDragging = false)
    (hS : s.dragStart = (sx, sy)) :
    (handlePointerMove (sx + 5) (sy + 5) rect s).isDragging = false ∧
    (handlePointerMove (sx + 6) sy rect s).isDragging = true ∧
    (handlePointerMove sx (sy + 6) rect s).isDragging = true := by
  refine ⟨?_, ?_, ?_⟩
  · simp only [handlePointerMove, hT, hS]
    rw [show sx + 5 - sx = (5:ℚ) by ring, show sy + 5 - sy = (5:ℚ) by ring]
    norm_num [jsAbs, hD]
  · simp only [handlePointerMove, hT, hS]
    rw [show sx + 6 - sx = (6:ℚ) by ring, show sy - sy = (0:ℚ) by ring]
    norm_num [jsAbs]
  · simp only [handlePointerMove, hT, hS]
    rw [show sx - sx = (0:ℚ) by ring, show sy + 6 - sy = (6:ℚ) by ring]
    norm_num [jsAbs]

/-- Witness for C5: a circle drag that started at the origin. -/
theorem threshold_boundary_witness :
    (handlePointerMove ((0:ℚ) + 5) ((0:ℚ) + 5) rect600 circleDragState).isDragging = false ∧
    (handlePointerMove ((0:ℚ) + 6) 0 rect600 circleDragState).isDragging = true ∧
    (handlePointerMove (0:ℚ) ((0:ℚ) + 6) rect600 circleDragState).isDragging = true :=
  threshold_boundary circleDragState DragTarget.circle 0 0 rect600 rfl rfl rfl

/-! ### C8: the headline mapper -/

/-- C8.  A headline-drag pointer-move sets `headlineY` to
`(rect.bottom - clientY) - baseline` with baseline 180 for the portrait
(`'9:16'`) format and 100 otherwise; the equality is exact for every pointer
position — no clamping is applied. -/
theorem headline_mapper_formula (clientX clientY : ℚ) (rect : Rect)
    (s : AppState) (hT : s.dragTarget = some DragTarget.headline) :
    (handlePointerMove clientX clientY rect s).post.headlineY =
      (rect.bottom - clientY) -
        (if s.post.format = PostFormat.r9x16 then 180 else 100) := by
  simp only [handlePointerMove, hT, applyMapper, headlineMapper]

/-- Witness for C8: a drag well below the preview, yielding the unclamped
negative offset `(600 - 950) - 100 = -450`. -/
theorem headline_mapper_formula_witness :
    (handlePointerMove 100 950 rect600 headlineDragState).post.headlineY =
      ((600:ℚ) - 950) - (if headlineDragState.post.format = PostFormat.r9x16
        then 180 else 100) :=
  headline_mapper_formula 100 950 rect600 headlineDragState rfl

/-! ### C9: the background mapper -/

/-- C9.  A background-drag pointer-move sets `mainImageY` to
`clamp(((clientY - rect.top) / rect.height) * 100, 0, 100)` — always in
`[0, 100]` — and leaves every other field of the document unchanged. -/
theorem background_mapper_clamped (clientX clientY : ℚ) (rect : Rect)
    (s : AppState) (hT : s.dragTarget = some DragTarget.background) :
    (handlePointerMove clientX clientY rect s).post.mainImageY =
      jsMax 0 (jsMin 100 ((clientY - rect.top) / rect.height * 100)) ∧
    0 ≤ (handlePointerMove clientX clientY rect s).post.mainImageY ∧
    (handlePointerMove clientX clientY rect s).post.mainImageY ≤ 100 ∧
    (handlePointerMove clientX clientY rect s).post.brandName = s.post.brandName ∧
    (handlePointerMove clientX clientY rect s).post.headline = s.post.headline ∧
    (handlePointerMove clientX clientY rect s).post.mainImage = s.post.mainImage ∧
    (handlePointerMove clientX clientY rect s).post.circleImage = s.post.circleImage ∧
    (handlePointerMove clientX clientY rect s).post.highlightColor = s.post.highlightColor ∧
    (handlePointerMove clientX clientY rect s).post.brandColor = s.post.brandColor ∧
    (handlePointerMove clientX clientY rect s).post.format = s.post.format ∧
    (handlePointerMove clientX clientY rect s).post.circleImageY = s.post.circleImageY ∧
    (handlePointerMove clientX clientY rect s).post.circleImageScale = s.post.circleImageScale ∧
    (handlePointerMove clientX clientY rect s).post.circleX = s.post.circleX ∧
    (handlePointerMove clientX clientY rect s).post.circleY = s.post.circleY ∧
    (handlePointerMove clientX clientY rect s).post.circleSize = s.post.circleSize ∧
    (handlePointerMove clientX clientY rect s).post.headlineSize = s.post.headlineSize ∧
    (handlePointerMove clientX clientY rect s).post.headlineY = s.post.headlineY := by
  obtain ⟨h0, h1⟩ := jsClamp_bounds 100 ((clientY - rect.top) / rect.height * 100)
    (by norm_num)
  simp only [handlePointerMove, hT, applyMapper, backgroundMapper,
    eq_self_iff_true, true_and, and_true]
  exact ⟨h0, h1⟩

/-- Witness for C9: a background drag at `(0, 9000)`, far below a 600×600
preview. -/
theorem background_mapper_clamped_witness :
    (handlePointerMove 0 9000 rect600 backgroundDragState).post.mainImageY =
      jsMax 0 (jsMin 100 (((9000:ℚ) - rect600.top) / rect600.height * 100)) ∧
    0 ≤ (handlePointerMove 0 9000 rect600 backgroundDragState).post.mainImageY ∧
    (handlePointerMove 0 9000 rect600 backgroundDragState).post.mainImageY ≤ 100 ∧
    (handlePointerMove 0 9000 rect600 backgroundDragState).post.brandName = backgroundDragState.post.brandName ∧
    (handlePointerMove 0 9000 rect600 backgroundDragState).post.headline = backgroundDragState.post.headline ∧
    (handlePointerMove 0 9000 rect600 backgroundDragState).post.mainImage = backgroundDragState.post.mainImage ∧
    (handlePointerMove 0 9000 rect600 backgroundDragState).post.circleImage = backgroundDragState.post.circleImage ∧
    (handlePointerMove 0 9000 rect600 backgroundDragState).post.highlightColor = backgroundDragState.post.highlightColor ∧
    (handlePointerMove 0 9000 rect600 backgroundDragState).post.brandColor = backgroundDragState.post.brandColor ∧
    (handlePointerMove 0 9000 rect600 backgroundDragState).post.format = backgroundDragState.post.format ∧
    (handlePointerMove 0 9000 rect600 backgroundDragState).post.circleImageY = backgroundDragState.post.circleImageY ∧
    (handlePointerMove 0 9000 rect600 backgroundDragState).post.circleImageScale = backgroundDragState.post.circleImageScale ∧
    (handlePointerMove 0 9000 rect600 backgroundDragState).post.circleX = backgroundDragState.post.circleX ∧
    (handlePointerMove 0 9000 rect600 backgroundDragState).post.circleY = backgroundDragState.post.circleY ∧
    (handlePointerMove 0 9000 rect600 backgroundDragState).post.circleSize = backgroundDragState.post.circleSize ∧
    (handlePointerMove 0 9000 rect600 backgroundDragState).post.headlineSize = backgroundDragState.post.headlineSize ∧
    (handlePointerMove 0 9000 rect600 backgroundDragState).post.headlineY = backgroundDragState.post.headlineY :=
  background_mapper_clamped 0 9000 rect600 backgroundDragState rfl

/-! ### C7: a second export request while one is in flight is ignored -/

/-- C7.  While `isExporting` is `true`, an export request returns at the
guard: the state is left exactly as it was (nothing is queued) and the
rasterizer invocation count does not change, so the rasterizer is never
running twice concurrently. -/
theorem export_request_ignored_while_in_flight (hasPreview : Bool)
    (s : ExportState) (h : s.isExporting = true) :
    downloadPostStart hasPreview s = s ∧
    (downloadPostStart hasPreview s).rasterizerCalls = s.rasterizerCalls := by
  have : downloadPostStart hasPreview s = s := by
    unfold downloadPostStart
    rw [if_pos (Or.inr h)]
  exact ⟨this, by rw [this]⟩

/-- Witness for C7: a second request fired while an export (no rasterizer
call yet counted) is in flight, with the preview mounted. -/
theorem export_request_ignored_while_in_flight_witness :
    downloadPostStart true ⟨true, 1⟩ = (⟨true, 1⟩ : ExportState) ∧
    (downloadPostStart true ⟨true, 1⟩).rasterizerCalls =
      (⟨true, 1⟩ : ExportState).rasterizerCalls :=
  export_request_ignored_while_in_flight true ⟨true, 1⟩ rfl

/-! ### C10: resizing the circle bypasses the in-bounds invariant -/

/-- C10.  The `circleSize` form control replaces only the `circleSize`
field, leaving `circleX` and `circleY` (and every other field) unchanged;
hence a document with `circleX + newSize > 100` violates the in-bounds
condition after the update, and the next circle-drag pointer-move
re-establishes `circleX + circleSize ≤ 100` and
`circleY + circleSize ≤ 100` (with both coordinates nonnegative). -/
theorem circle_size_update_bypasses_bounds (p : NewsPost) (v : ℚ)
    (clientX clientY : ℚ) (rect : Rect)
    (_hlo : 10 ≤ v) (hhi : v ≤ 70) :
    (setCircleSize p v).circleX = p.circleX ∧
    (setCircleSize p v).circleY = p.circleY ∧
    (setCircleSize p v).circleSize = v ∧
    (setCircleSize p v).brandName = p.brandName ∧
    (setCircleSize p v).headline = p.headline ∧
    (setCircleSize p v).mainImage = p.mainImage ∧
    (setCircleSize p v).circleImage = p.circleImage ∧
    (setCircleSize p v).highlightColor = p.highlightColor ∧
    (setCircleSize p v).brandColor = p.brandColor ∧
    (setCircleSize p v).format = p.format ∧
    (setCircleSize p v).mainImageY = p.mainImageY ∧
    (setCircleSize p v).circleImageY = p.circleImageY ∧
    (setCircleSize p v).circleImageScale = p.circleImageScale ∧
    (setCircleSize p v).headlineSize = p.headlineSize ∧
    (setCircleSize p v).headlineY = p.headlineY ∧
    (100 < p.circleX + v →
      ¬((setCircleSize p v).circleX + (setCircleSize p v).circleSize ≤ 100)) ∧
    (0 ≤ (handlePointerMove clientX clientY rect
        (AppState.mk (setCircleSize p v) (some DragTarget.circle) (0, 0) false)).post.circleX ∧
      (handlePointerMove clientX clientY rect
        (AppState.mk (setCircleSize p v) (some DragTarget.circle) (0, 0) false)).post.circleX +
        (handlePointerMove clientX clientY rect
          (AppState.mk (setCircleSize p v) (some DragTarget.circle) (0, 0) false)).post.circleSize ≤ 100 ∧
      0 ≤ (handlePointerMove clientX clientY rect
        (AppState.mk (setCircleSize p v) (some DragTarget.circle) (0, 0) false)).post.circleY ∧
      (handlePointerMove clientX clientY rect
        (AppState.mk (setCircleSize p v) (some DragTarget.circle) (0, 0) false)).post.circleY +
        (handlePointerMove clientX clientY rect
          (AppState.mk (setCircleSize p v) (some DragTarget.circle) (0, 0) false)).post.circleSize ≤ 100) := by
  have hhi0 : (0:ℚ) ≤ 100 - v := by linarith
  refine ⟨rfl, rfl, rfl, rfl, rfl, rfl, rfl, rfl, rfl, rfl, rfl, rfl, rfl,
    rfl, rfl, ?_, ?_⟩
  · intro hviol
    simp only [setCircleSize, not_le]
    linarith
  · simp only [handlePointerMove, applyMapper, circleMapper, setCircleSize]
    obtain ⟨hx0, hx1⟩ := jsClamp_bounds (100 - v)
      ((rect.right - clientX) / rect.width * 100 - v / 2) hhi0
    obtain ⟨hy0, hy1⟩ := jsClamp_bounds (100 - v)
      ((clientY - rect.top) / rect.height * 100 - v / 2) hhi0
    exact ⟨hx0, by linarith, hy0, by linarith⟩

/-- Witness for C10: growing the circle to 70% on a document whose circle
sits at `circleX = 50` breaks the bound (50 + 70 > 100); the next circle
drag at `(300, 300)` restores it. -/
theorem circle_size_update_bypasses_bounds_witness :
    (setCircleSize wideCirclePost 70).circleX = wideCirclePost.circleX ∧
    (setCircleSize wideCirclePost 70).circleY = wideCirclePost.circleY ∧
    (setCircleSize wideCirclePost 70).circleSize = 70 ∧
    (setCircleSize wideCirclePost 70).brandName = wideCirclePost.brandName ∧
    (setCircleSize wideCirclePost 70).headline = wideCirclePost.headline ∧
    (setCircleSize wideCirclePost 70).mainImage = wideCirclePost.mainImage ∧
    (setCircleSize wideCirclePost 70).circleImage = wideCirclePost.circleImage ∧
    (setCircleSize wideCirclePost 70).highlightColor = wideCirclePost.highlightColor ∧
    (setCircleSize wideCirclePost 70).brandColor = wideCirclePost.brandColor ∧
    (setCircleSize wideCirclePost 70).format = wideCirclePost.format ∧
    (setCircleSize wideCirclePost 70).mainImageY = wideCirclePost.mainImageY ∧
    (setCircleSize wideCirclePost 70).circleImageY = wideCirclePost.circleImageY ∧
    (setCircleSize wideCirclePost 70).circleImageScale = wideCirclePost.circleImageScale ∧
    (setCircleSize wideCirclePost 70).headlineSize = wideCirclePost.headlineSize ∧
    (setCircleSize wideCirclePost 70).headlineY = wideCirclePost.headlineY ∧
    (100 < wideCirclePost.circleX + 70 →
      ¬((setCircleSize wideCirclePost 70).circleX +
        (setCircleSize wideCirclePost 70).circleSize ≤ 100)) ∧
    (0 ≤ (handlePointerMove 300 300 rect600
        (AppState.mk (setCircleSize wideCirclePost 70) (some DragTarget.circle) (0, 0) false)).post.circleX ∧
      (handlePointerMove 300 300 rect600
        (AppState.mk (setCircleSize wideCirclePost 70) (some DragTarget.circle) (0, 0) false)).post.circleX +
        (handlePointerMove 300 300 rect600
          (AppState.mk (setCircleSize wideCirclePost 70) (some DragTarget.circle) (0, 0) false)).post.circleSize ≤ 100 ∧
      0 ≤ (handlePointerMove 300 300 rect600
        (AppState.mk (setCircleSize wideCirclePost 70) (some DragTarget.circle) (0, 0) false)).post.circleY ∧
      (handlePointerMove 300 300 rect600
        (AppState.mk (setCircleSize wideCirclePost 70) (some DragTarget.circle) (0, 0) false)).post.circleY +
        (handlePointerMove 300 300 rect600
          (AppState.mk (setCircleSize wideCirclePost 70) (some DragTarget.circle) (0, 0) false)).post.circleSize ≤ 100) :=
  circle_size_update_bypasses_bounds wideCirclePost 70 300 300 rect600
    (by norm_num) (by norm_num)

/-! ### C4: a drag suppresses the tap, and pointer-up always resets -/

/-- A pointer-move never changes `dragTarget` or `dragStart`. -/
lemma move_preserves_target_and_start (clientX clientY : ℚ) (rect : Rect)
    (s : AppState) :
    (handlePointerMove clientX clientY rect s).dragTarget = s.dragTarget ∧
    (handlePointerMove clientX clientY rect s).dragStart = s.dragStart := by
  cases h : s.dragTarget <;> simp [handlePointerMove, h]

/-- A pointer-move never clears `isDragging`. -/
lemma move_keeps_dragging (clientX clientY : ℚ) (rect : Rect) (s : AppState)
    (h : s.isDragging = true) :
    (handlePointerMove clientX clientY rect s).isDragging = true := by
  cases ht : s.dragTarget
  · simp [handlePointerMove, ht, h]
  · simp only [handlePointerMove, ht]
    split <;> simp [h]

/-- Once `isDragging` holds, it still holds after any run of moves. -/
lemma runMoves_keeps_dragging (ms : List MoveEv) (s : AppState)
    (h : s.isDragging = true) : (runMoves ms s).isDragging = true := by
  induction ms generalizing s with
  | nil => exact h
  | cons m ms ih =>
    exact ih _ (move_keeps_dragging m.x m.y m.rect s h)

/-- If some move of the run leaves the 5-pixel box around the recorded
start point while a target is active, the run ends with `isDragging`. -/
lemma runMoves_sets_dragging (ms : List MoveEv) (s : AppState)
    (t : DragTarget) (sx sy : ℚ) (hT : s.dragTarget = some t)
    (hS : s.dragStart = (sx, sy))
    (h : ∃ m ∈ ms, 5 < jsAbs (m.x - sx) ∨ 5 < jsAbs (m.y - sy)) :
    (runMoves ms s).isDragging = true := by
  induction ms generalizing s with
  | nil => exact absurd h (by simp)
  | cons m ms ih =>
    obtain ⟨m', hm', hexc⟩ := h
    rcases List.mem_cons.mp hm' with rfl | hmem
    · refine runMoves_keeps_dragging ms _ ?_
      simp only [handlePointerMove, hT, hS]
      rw [if_pos hexc]
    · obtain ⟨hpt, hps⟩ := move_preserves_target_and_start m.x m.y m.rect s
      exact ih _ (hpt.trans hT) (hps.trans hS) ⟨m', hmem, hexc⟩

/-- C4.  In any pointer-down / pointer-move* / pointer-up sequence in which
some intermediate move leaves the 5-pixel box around the start point, the
pointer-up opens no file-selection surface (no Tap), whatever target argument
the up handler receives and wherever the pointer ends; and every pointer-up,
tap or drag, resets the classifier to `dragTarget = none`,
`isDragging = false`. -/
theorem drag_suppresses_tap_and_up_resets (s₀ : AppState) (t : DragTarget)
    (sx sy : ℚ) (ms : List MoveEv) (upT : Option DragTarget)
    (h : ∃ m ∈ ms, 5 < jsAbs (m.x - sx) ∨ 5 < jsAbs (m.y - sy)) :
    (handlePointerUp upT (runMoves ms (handlePointerDown t sx sy s₀))).2 = none ∧
    (handlePointerUp upT (runMoves ms (handlePointerDown t sx sy s₀))).1.dragTarget = none ∧
    (handlePointerUp upT (runMoves ms (handlePointerDown t sx sy s₀))).1.isDragging = false ∧
    (∀ (s : AppState) (u : Option DragTarget),
      (handlePointerUp u s).1.dragTarget = none ∧
      (handlePointerUp u s).1.isDragging = false) := by
  have hdrag : (runMoves ms (handlePointerDown t sx sy s₀)).isDragging = true :=
    runMoves_sets_dragging ms _ t sx sy rfl rfl h
  refine ⟨?_, rfl, rfl, fun s u => ⟨rfl, rfl⟩⟩
  simp [handlePointerUp, hdrag]

/-- Witness for C4: a background gesture from the origin whose single move
reaches `(20, 0)`, 20 pixels away; its pointer-up over the background region
emits no tap and resets the classifier. -/
theorem drag_suppresses_tap_and_up_resets_witness :
    (handlePointerUp (some DragTarget.background)
      (runMoves [MoveEv.mk 20 0 rect600]
        (handlePointerDown DragTarget.background 0 0 idleState))).2 = none ∧
    (handlePointerUp (some DragTarget.background)
      (runMoves [MoveEv.mk 20 0 rect600]
        (handlePointerDown DragTarget.background 0 0 idleState))).1.dragTarget = none ∧
    (handlePointerUp (some DragTarget.background)
      (runMoves [MoveEv.mk 20 0 rect600]
        (handlePointerDown DragTarget.background 0 0 idleState))).1.isDragging = false ∧
    (∀ (s : AppState) (u : Option DragTarget),
      (handlePointerUp u s).1.dragTarget = none ∧
      (handlePointerUp u s).1.isDragging = false) :=
  drag_suppresses_tap_and_up_resets idleState DragTarget.background 0 0
    [MoveEv.mk 20 0 rect600] (some DragTarget.background)
    ⟨MoveEv.mk 20 0 rect600, List.mem_singleton.mpr rfl,
      Or.inl (by norm_num [jsAbs])⟩

/-! ### C3: headline segmentation -/

/-- Scanning brace-free text only accumulates it into the unmatched prefix. -/
lemma splitLoop_outside (o : List Char) (hbr : '{' ∉ o) :
    ∀ out rest, splitLoop out none (o ++ rest) = splitLoop (out ++ o) none rest := by
  induction o with
  | nil => intro out rest; simp
  | cons c o ih =>
    intro out rest
    have hc : c ≠ '{' := fun h => hbr (h ▸ List.mem_cons_self c o)
    have ho : '{' ∉ o := fun h => hbr (List.mem_cons_of_mem c h)
    rw [List.cons_append]
    simp only [splitLoop]
    rw [if_neg hc, ih ho]
    rw [List.append_assoc]
    rfl

/-- With a match pending, text free of `}` and of line terminators feeds the
lazy `.*?`, and the first `}` closes the match. -/
lemma splitLoop_pending (i : List Char) (hbr : '}' ∉ i)
    (hnl : ∀ c ∈ i, isLineTerm c = false) :
    ∀ out buf rest, splitLoop out (some buf) (i ++ '}' :: rest) =
      out :: ('{' :: (buf ++ i) ++ ['}']) :: splitLoop [] none rest := by
  induction i with
  | nil =>
    intro out buf rest
    rw [List.nil_append]
    simp only [splitLoop]
    rw [if_pos trivial, List.append_nil]
  | cons c i ih =>
    intro out buf rest
    have hc : c ≠ '}' := fun h => hbr (h ▸ List.mem_cons_self c i)
    have hcnl : isLineTerm c = false := hnl c (List.mem_cons_self c i)
    have hi : '}' ∉ i := fun h => hbr (List.mem_cons_of_mem c h)
    have hinl : ∀ d ∈ i, isLineTerm d = false :=
      fun d hd => hnl d (List.mem_cons_of_mem c hd)
    rw [List.cons_append]
    simp only [splitLoop]
    rw [if_neg hc, hcnl]
    simp only [Bool.false_eq_true, if_false]
    rw [ih hi hinl]
    rw [List.append_assoc]
    rfl

/-- On a balanced non-nested decomposition with line-terminator-free inner
texts, the split yields exactly the alternating outside/match parts. -/
lemma splitLoop_partsOf (pieces : List (List Char × List Char))
    (tailText : List Char)
    (houtside : ∀ pr ∈ pieces, braceFree pr.1)
    (hinner : ∀ pr ∈ pieces, braceFree pr.2 ∧ noLineTermIn pr.2)
    (htail : braceFree tailText) :
    splitLoop [] none (assemble pieces tailText) = partsOf pieces tailText := by
  induction pieces with
  | nil =>
    have h := splitLoop_outside tailText htail.1 [] []
    rw [List.append_nil] at h
    simpa [assemble, partsOf] using h
  | cons pr ps ih =>
    obtain ⟨o, i⟩ := pr
    have ho : '{' ∉ o := (houtside (o, i) (List.mem_cons_self _ _)).1
    have hi : '}' ∉ i := (hinner (o, i) (List.mem_cons_self _ _)).1.2
    have hinl : ∀ c ∈ i, isLineTerm c = false :=
      (hinner (o, i) (List.mem_cons_self _ _)).2
    have hasm : assemble ((o, i) :: ps) tailText =
        o ++ ('{' :: (i ++ '}' :: assemble ps tailText)) := by
      simp [assemble, List.append_assoc]
    rw [hasm, splitLoop_outside o ho [] ('{' :: (i ++ '}' :: assemble ps tailText)),
      List.nil_append]
    simp only [splitLoop]
    rw [if_pos trivial,
      splitLoop_pending i hi hinl o [] (assemble ps tailText), List.nil_append,
      ih (fun q hq => houtside q (List.mem_cons_of_mem _ hq))
        (fun q hq => hinner q (List.mem_cons_of_mem _ hq))]
    rfl

/-- A brace-free part renders as plain text. -/
lemma renderPart_outside (o : List Char) (hbr : '{' ∉ o) :
    renderPart o = Segment.plain o := by
  cases o with
  | nil => rfl
  | cons c o =>
    have hc : c ≠ '{' := fun h => hbr (h ▸ List.mem_cons_self c o)
    unfold renderPart
    rw [if_neg]
    rintro ⟨h1, -⟩
    exact hc (by simpa using h1)

/-- A matched part `{inner}` renders highlighted with the braces stripped. -/
lemma renderPart_match (i : List Char) :
    renderPart ('{' :: (i ++ ['}'])) = Segment.highlight i := by
  unfold renderPart
  rw [if_pos]
  · simp
  · refine ⟨rfl, ?_⟩
    rw [show ('{' :: (i ++ ['}'])) = ('{' :: i) ++ ['}'] from rfl,
      List.getLast?_concat]

/-- C3.  The default headline splits into exactly the three segments of the
spec's example; and on any headline whose braces form balanced, non-nested
pairs whose inner texts contain no line terminator, the split preserves all
original characters, strips exactly the brace delimiters, and keeps each
inner text as a highlighted segment between the plain outside texts. -/
theorem headline_segmentation (pieces : List (List Char × List Char))
    (tailText : List Char)
    (houtside : ∀ pr ∈ pieces, braceFree pr.1)
    (hinner : ∀ pr ∈ pieces, braceFree pr.2 ∧ noLineTermIn pr.2)
    (htail : braceFree tailText) :
    renderHeadline "EZEN NEWS revelado: Novo gerador de posts {revoluciona} design digital" =
      [Segment.plain ("EZEN NEWS revelado: Novo gerador de posts ".toList),
       Segment.highlight ("revoluciona".toList),
       Segment.plain (" design digital".toList)] ∧
    renderHeadlineChars (assemble pieces tailText) =
      expectedSegs pieces tailText := by
  refine ⟨by decide, ?_⟩
  unfold renderHeadlineChars
  rw [splitLoop_partsOf pieces tailText houtside hinner htail]
  clear hinner
  induction pieces with
  | nil =>
    simp [partsOf, expectedSegs, renderPart_outside tailText htail.1]
  | cons pr ps ih =>
    obtain ⟨o, i⟩ := pr
    have ho : '{' ∉ o := (houtside (o, i) (List.mem_cons_self _ _)).1
    simp only [partsOf, List.map_cons]
    rw [renderPart_outside o ho, renderPart_match i,
      ih (fun q hq => houtside q (List.mem_cons_of_mem _ hq))]
    rfl

/-- Witness for C3: the decomposition of the default headline itself —
outside text `"EZEN NEWS revelado: Novo gerador de posts "`, inner text
`"revoluciona"`, tail `" design digital"`. -/
theorem headline_segmentation_witness :
    renderHeadline "EZEN NEWS revelado: Novo gerador de posts {revoluciona} design digital" =
      [Segment.plain ("EZEN NEWS revelado: Novo gerador de posts ".toList),
       Segment.highlight ("revoluciona".toList),
       Segment.plain (" design digital".toList)] ∧
    renderHeadlineChars
      (assemble [("EZEN NEWS revelado: Novo gerador de posts ".toList,
        "revoluciona".toList)] (" design digital".toList)) =
      expectedSegs [("EZEN NEWS revelado: Novo gerador de posts ".toList,
        "revoluciona".toList)] (" design digital".toList) :=
  headline_segmentation
    [("EZEN NEWS revelado: Novo gerador de posts ".toList, "revoluciona".toList)]
    (" design digital".toList)
    (by decide) (by decide) (by decide)

/-- Counterexample to C3 as stated.  The headline `"x{a\nb}y"` has one
balanced, non-nested brace pair (inner text `a`, newline, `b`), yet the
regex `/(\{.*?\})/` cannot match across the newline: the whole string comes
back as a single plain segment, the delimiters are not stripped and nothing
is highlighted. -/
theorem headline_newline_pair_not_highlighted :
    assemble [(['x'], ['a', '\n', 'b'])] ['y'] = "x\x7ba\nb\x7dy".toList ∧
    braceFree ['x'] ∧ braceFree ['a', '\n', 'b'] ∧ braceFree ['y'] ∧
    renderHeadline "x\x7ba\nb\x7dy" =
      [Segment.plain ("x\x7ba\nb\x7dy".toList)] ∧
    renderHeadline "x\x7ba\nb\x7dy" ≠
      expectedSegs [(['x'], ['a', '\n', 'b'])] ['y'] := by
  decide

end EzenNews
